import Mathlib

/-!
Verification of the record-processing core of `src/app.py` — the function
`procesar_datos` (lines 19-72) and its caller (lines 88-93) — against the
repository's specification.

Modelling conventions, each also noted at the definition it concerns:

* A pandas `DataFrame` is modelled as a list of rows plus one presence flag
  per required column.
* `pd.to_datetime(col, errors='coerce')` maps every raw cell to a timestamp
  or `NaT`; a row therefore carries the parse result of its date cell
  directly as an `Option DT` (`none` = `NaT`).  The claims under study only
  distinguish parseable from unparseable cells, never raw text forms.
* Timestamps are carried to second granularity (pandas uses nanoseconds,
  but no operation below distinguishes sub-second detail).
* `datetime.now()` (line 43) is an ambient read inside `procesar_datos`;
  the embedding passes the value that the wall clock returns during the
  call as the explicit argument `now`, which makes the dependence on the
  ambient clock visible and provable.
* The in-place mutation of the argument dataframe (lines 25, 28, 31) is
  modelled by state passing: `procesar_datos` returns, next to its result,
  the final state of its argument object.
* pandas obtains a descending `sort_values` order by reversing the input
  and the output of an ascending argsort (`pandas.core.sorting.nargsort`);
  the default `kind='quicksort'` leaves the relative order of equal keys
  unspecified, so the embedding fixes one concrete ascending sort (a
  stable one) purely as a determinization.  No theorem below depends on
  where a sort places equal keys: only the multiset of rows, the key
  order, and membership are ever used.
-/

/-- Column name `Última Actuación` (line 15). -/
def COL_ACTUACION : String := "Última Actuación"

/-- Column name `Fecha Actuación` (line 16). -/
def COL_FECHA : String := "Fecha Actuación"

/-- Column name `Número Noticia` (line 17). -/
def COL_CASO : String := "Número Noticia"

/-- The single-quote character stripped from case identifiers (line 25). -/
def quoteChar : Char := Char.ofNat 39

/-- The single-quote pattern string of line 25. -/
def quoteStr : String := String.singleton quoteChar

/-- A civil-calendar date. -/
structure Date where
  y : Nat
  m : Nat
  d : Nat
deriving DecidableEq

/-- Gregorian leap-year rule, as in Python's `calendar` module. -/
def isLeap (y : Nat) : Bool := (y % 4 == 0 && y % 100 != 0) || (y % 400 == 0)

/-- `calendar.monthrange(y, m)[1]`: the number of days of month `m` of year `y`. -/
def daysInMonth (y m : Nat) : Nat :=
  match m with
  | 2 => if isLeap y then 29 else 28
  | 4 => 30
  | 6 => 30
  | 9 => 30
  | 11 => 30
  | _ => 31

/-- Days of year `y` that precede month `m` (1-based). -/
def daysBeforeMonth (m : Nat) (leap : Bool) : Nat :=
  let lp : Nat := if leap then 1 else 0
  match m with
  | 1 => 0
  | 2 => 31
  | 3 => 59 + lp
  | 4 => 90 + lp
  | 5 => 120 + lp
  | 6 => 151 + lp
  | 7 => 181 + lp
  | 8 => 212 + lp
  | 9 => 243 + lp
  | 10 => 273 + lp
  | 11 => 304 + lp
  | _ => 334 + lp

/-- Number of leap years strictly before year `y` (proleptic Gregorian). -/
def leapsBefore (y : Nat) : Nat := (y - 1) / 4 - (y - 1) / 100 + (y - 1) / 400

/-- Linear day number of a date, as in Python's `datetime.date.toordinal`
(day 1 = 0001-01-01). -/
def Date.ordinal (x : Date) : Nat :=
  365 * (x.y - 1) + leapsBefore x.y + daysBeforeMonth x.m (isLeap x.y) + (x.d - 1)

/-- A date-time value: a civil date plus a time of day in seconds. -/
structure DT where
  date : Date
  t : Nat
deriving DecidableEq

/-- Linear time line in seconds; comparisons and subtractions of
timestamps happen on this scale. -/
def DT.lin (x : DT) : Nat := 86400 * x.date.ordinal + x.t

/-- `.dt.floor('D')` / `.replace(hour=0, minute=0, second=0, microsecond=0)`:
truncate the time of day to midnight. -/
def DT.floorD (x : DT) : DT := ⟨x.date, 0⟩

/-- A date the Python `datetime` library can actually represent and produce.
Year at least 2 keeps the two-month subtraction inside the proleptic
calendar (real pandas timestamps live in 1677-2262). -/
def ValidDate (x : Date) : Prop :=
  2 ≤ x.y ∧ 1 ≤ x.m ∧ x.m ≤ 12 ∧ 1 ≤ x.d ∧ x.d ≤ daysInMonth x.y x.m

instance (x : Date) : Decidable (ValidDate x) :=
  inferInstanceAs (Decidable (2 ≤ x.y ∧ 1 ≤ x.m ∧ x.m ≤ 12 ∧ 1 ≤ x.d ∧ x.d ≤ daysInMonth x.y x.m))

/-- A valid date-time: valid date, time of day within the day. -/
def ValidDT (x : DT) : Prop := ValidDate x.date ∧ x.t < 86400

instance (x : DT) : Decidable (ValidDT x) :=
  inferInstanceAs (Decidable (ValidDate x.date ∧ x.t < 86400))

/-- `fecha_actual - relativedelta(months=2)` (line 46), as dateutil computes
it: subtract 2 from the month, borrow a year when the month underflows, and
clamp the day of month to `calendar.monthrange(year, month)[1]`
(`day = min(monthrange(y, m)[1], dt.day)`).  The time of day is preserved;
here it is always midnight. -/
def subTwoMonths (x : Date) : Date :=
  if 3 ≤ x.m then
    ⟨x.y, x.m - 2, min (daysInMonth x.y (x.m - 2)) x.d⟩
  else
    ⟨x.y - 1, x.m + 10, min (daysInMonth (x.y - 1) (x.m + 10)) x.d⟩

/-- Modelled from the spec: `cutoff` is the reference date minus exactly two
calendar months with civil-calendar semantics — the month index is moved
back by two and the day of month is clamped when the target month is
shorter.  Written independently of `subTwoMonths` (absolute month
arithmetic instead of dateutil's borrow), to be compared with the code's
computation. -/
def specCutoff (x : Date) : Date :=
  let idx := 12 * x.y + (x.m - 1) - 2
  let ty := idx / 12
  let tm := idx % 12 + 1
  ⟨ty, tm, min x.d (daysInMonth ty tm)⟩

/-- A value of the case-identifier column: a string, an integer, or NaN.
`read_csv` yields an `object` (string) column exactly when some cell is
textual, an integer or float column otherwise. -/
inductive CasoVal where
  | str (s : String)
  | intv (n : Int)
  | nan
deriving DecidableEq

/-- Python `str()` of a cell value, as applied by `.astype(str)` (line 25). -/
def astypeStr : CasoVal → String
  | .str s => s
  | .intv n => toString n
  | .nan => "nan"

/-- `.str.replace("'", "", regex=False)` (line 25): remove every occurrence
of the single-quote character.  For a one-character pattern and empty
replacement this is exactly a character filter. -/
def stripQuotes (s : String) : String := ⟨s.data.filter (fun c => c ≠ quoteChar)⟩

/-- Line 25 applied to one cell: stringify, then drop single quotes. -/
def stripCaso (c : CasoVal) : CasoVal := .str (stripQuotes (astypeStr c))

/-- One row of the dataframe.  `fecha` holds the result of
`pd.to_datetime(cell, errors='coerce')` (`none` = `NaT`), `actuacion` the
action label (`none` = NaN). -/
structure Row where
  caso : CasoVal
  fecha : Option DT
  actuacion : Option String
deriving DecidableEq

/-- A pandas dataframe: presence flags for the three required columns plus
the rows.  When a flag is false the corresponding row field is dead data:
no output of a run exposes it. -/
structure DataFrame where
  hasCaso : Bool
  hasFecha : Bool
  hasActuacion : Bool
  rows : List Row
deriving DecidableEq

/-- Whether a case cell is textual. -/
def isStrCaso : CasoVal → Bool
  | .str _ => true
  | _ => false

/-- `df[COL_CASO].dtype == 'object'` (line 24): the column is of object
dtype exactly when some cell is textual. -/
def casoDtypeObject (rows : List Row) : Bool := rows.any (fun r => isStrCaso r.caso)

/-- Line 25 applied to one row. -/
def stripRow (r : Row) : Row := { r with caso := stripCaso r.caso }

/-- Lines 24-25: if the case column exists and is of object dtype, replace
it by its stringified, quote-stripped form (in place). -/
def stripStep (df : DataFrame) : DataFrame :=
  if df.hasCaso && casoDtypeObject df.rows then
    { df with rows := df.rows.map stripRow }
  else df

/-- Whether the row's date cell parsed. -/
def hasDate (r : Row) : Bool := r.fecha.isSome

/-- Line 31: `df.dropna(subset=[COL_FECHA], inplace=True)` — drop rows whose
date is `NaT`. -/
def dropnaStep (df : DataFrame) : DataFrame := { df with rows := df.rows.filter hasDate }

/-- State of the argument dataframe after lines 24-31 (strip, convert,
dropna); this is also the cleaned dataset the function returns. -/
def cleanedOf (df : DataFrame) : DataFrame := dropnaStep (stripStep df)

/-- First-occurrence distinct values, as `pandas.Series.unique` produces
them (NaN kept, once). -/
def uniqAux : List (Option String) → List (Option String) → List (Option String)
  | _, [] => []
  | seen, a :: l => if a ∈ seen then uniqAux seen l else a :: uniqAux (a :: seen) l

/-- `df[COL_ACTUACION].unique().tolist()` (line 34). -/
def pdUnique (l : List (Option String)) : List (Option String) := uniqAux [] l

/-- Comparison used by `list.sort()` on label values when it does not
raise: `none` (NaN) never meets a string there, so its ordering is a
formal bottom that a successful run never exercises. -/
def optLe : Option String → Option String → Prop
  | none, _ => True
  | some _, none => False
  | some a, some b => a ≤ b

instance : DecidableRel optLe := fun a b =>
  match a, b with
  | none, _ => isTrue trivial
  | some _, none => isFalse (fun h => h)
  | some x, some y => inferInstanceAs (Decidable (x ≤ y))

instance : IsTotal (Option String) optLe :=
  ⟨fun a b =>
    match a, b with
    | none, _ => Or.inl trivial
    | some _, none => Or.inr trivial
    | some x, some y => le_total x y⟩

instance : IsTrans (Option String) optLe :=
  ⟨fun a b c h1 h2 =>
    match a, b, c with
    | none, _, _ => trivial
    | some _, none, _ => h1.elim
    | some _, some _, none => h2.elim
    | some _, some _, some _ => le_trans h1 h2⟩

/-- CPython raises `TypeError` when `list.sort()` compares a float NaN with
a `str`; a distinct-label list triggers this exactly when it holds both a
NaN and a string. -/
def mixedLabels (l : List (Option String)) : Bool :=
  l.any (fun a => a.isNone) && l.any (fun a => a.isSome)

/-- The failure results of `procesar_datos`: the `except KeyError` handler
of line 67 (a required column was absent — the spec's `SchemaError`) and
the catch-all `except Exception` handler of line 70 (the spec's
`ProcessingError`; here always the `TypeError` of sorting mixed labels).
Both handlers return `None` for every output, so no view is produced. -/
inductive PyErr where
  | keyError (col : String)
  | typeError
deriving DecidableEq

/-- Lines 34-35: distinct labels, sorted alphabetically; raises on a
NaN/string mix. -/
def listaStep (rows : List Row) : Except PyErr (List (Option String)) :=
  if mixedLabels (pdUnique (rows.map Row.actuacion)) then .error .typeError
  else .ok (List.insertionSort optLe (pdUnique (rows.map Row.actuacion)))

/-- Ascending key comparison for a sort key. -/
def leKey {α K : Type} [LinearOrder K] (key : α → K) (a b : α) : Prop := key a ≤ key b

instance {α K : Type} [LinearOrder K] (key : α → K) : DecidableRel (leKey key) :=
  fun a b => inferInstanceAs (Decidable (key a ≤ key b))

instance {α K : Type} [LinearOrder K] (key : α → K) : IsTotal α (leKey key) :=
  ⟨fun a b => le_total (key a) (key b)⟩

instance {α K : Type} [LinearOrder K] (key : α → K) : IsTrans α (leKey key) :=
  ⟨fun _ _ _ h1 h2 => le_trans h1 h2⟩

/-- `df.sort_values(by=k, ascending=False)`: pandas' `nargsort` reverses
the column, argsorts it ascending (default `kind='quicksort'`, whose
equal-key order is unspecified), and reverses the indexer again.  The
embedding takes one concrete ascending sort as a determinization; every
result proved about this definition is tie-order independent (a
permutation, key-sortedness, or membership fact), so it holds for any
argsort kind the program may use. -/
def pandasSortDesc {α K : Type} [LinearOrder K] (key : α → K) (l : List α) : List α :=
  (List.insertionSort (leKey key) l.reverse).reverse

/-- Sort key of line 38: the timestamp (rows reaching a sort have a parsed
date; `NaT` would be ordered last by `nargsort` and is given key 0 here). -/
def fechaKey (r : Row) : Nat :=
  match r.fecha with
  | some x => x.lin
  | none => 0

/-- Line 49: `df[COL_FECHA].dt.floor('D') < fecha_limite` for one row
(`NaT` compares false). -/
def staleTest (lim : DT) (r : Row) : Bool :=
  match r.fecha with
  | some x => decide (x.floorD.lin < lim.lin)
  | none => false

/-- Line 53: `(fecha_actual - fecha).dt.days` — the whole-day (floor)
difference between the midnight reference and the unfloored timestamp. -/
def ageDays (nowMid : DT) : Option DT → Int
  | some x => ((nowMid.lin : Int) - (x.lin : Int)).fdiv 86400
  | none => 0

/-- A row of the stale view: the four projected columns of lines 56-60. -/
structure StaleRow where
  caso : CasoVal
  fecha : Option DT
  actuacion : Option String
  age : Int
deriving DecidableEq

/-- Lines 53-60 applied to one stale row: annotate with `Días de
Antigüedad` and project the four key columns. -/
def projStale (nowMid : DT) (r : Row) : StaleRow :=
  ⟨r.caso, r.fecha, r.actuacion, ageDays nowMid r.fecha⟩

/-- The six-tuple a successful run returns (line 65). -/
structure Output where
  lista : List (Option String)
  df : DataFrame
  clasificado : List Row
  atrasados : List StaleRow
  fechaActual : DT
  fechaLimite : DT
deriving DecidableEq

deriving instance DecidableEq for Except

/-- Lines 43-46: `fecha_limite`, the staleness cutoff. -/
def fechaLimiteOf (now : DT) : DT := ⟨subTwoMonths now.floorD.date, 0⟩

/-- Line 49: the stale subset of the cleaned rows. -/
def staleOf (df : DataFrame) (now : DT) : List Row :=
  (cleanedOf df).rows.filter (staleTest (fechaLimiteOf now))

/-- The embedding of `procesar_datos` (lines 19-72).  `now` is the value
`datetime.now()` returns at line 43 (an ambient read, see the header).  The
second component is the final state of the argument dataframe, which the
function mutates in place.  Absent columns raise `KeyError` exactly where
the source touches them: the date column at line 28, the label column at
line 34, and the case column only at the projection of line 56, which runs
only when the stale subset is non-empty. -/
def procesar_datos (df : DataFrame) (now : DT) : Except PyErr Output × DataFrame :=
  if (stripStep df).hasFecha = false then
    (.error (.keyError COL_FECHA), stripStep df)
  else if (cleanedOf df).hasActuacion = false then
    (.error (.keyError COL_ACTUACION), cleanedOf df)
  else
    match listaStep (cleanedOf df).rows with
    | .error e => (.error e, cleanedOf df)
    | .ok lista =>
      if (staleOf df now).isEmpty then
        (.ok ⟨lista, cleanedOf df, pandasSortDesc fechaKey (cleanedOf df).rows, [],
              now.floorD, fechaLimiteOf now⟩, cleanedOf df)
      else if (cleanedOf df).hasCaso = false then
        (.error (.keyError COL_CASO), cleanedOf df)
      else
        (.ok ⟨lista, cleanedOf df, pandasSortDesc fechaKey (cleanedOf df).rows,
              pandasSortDesc StaleRow.age ((staleOf df now).map (projStale now.floorD)),
              now.floorD, fechaLimiteOf now⟩, cleanedOf df)

/-- Lines 90-93 of the shell: read the CSV into `df_original` and call
`procesar_datos(df_original.copy())`.  Returns the call's result (with the
copy's final state) and the state of `df_original` after the call, which no
operation of the call ever touches. -/
def appCall (dfOriginal : DataFrame) (now : DT) : (Except PyErr Output × DataFrame) × DataFrame :=
  (procesar_datos dfOriginal now, dfOriginal)

/-- Whether a run produced outputs (`lista_actuaciones is not None` at line 95). -/
def isOkB : Except PyErr Output → Bool
  | .ok _ => true
  | .error _ => false

/-- The success condition of a run, spelled out. -/
def okCond (df : DataFrame) (now : DT) : Bool :=
  df.hasFecha && df.hasActuacion &&
    !(mixedLabels (pdUnique ((cleanedOf df).rows.map Row.actuacion))) &&
    ((staleOf df now).isEmpty || df.hasCaso)

/-- The dataframe with its unparseable-date rows removed up front. -/
def dropBadRows (df : DataFrame) : DataFrame := { df with rows := df.rows.filter hasDate }

/-- A case value free of the literal single-quote character. -/
def noQuoteC : CasoVal → Prop
  | .str s => quoteChar ∉ s.data
  | .intv _ => True
  | .nan => True

instance : (c : CasoVal) → Decidable (noQuoteC c)
  | .str s => inferInstanceAs (Decidable (quoteChar ∉ s.data))
  | .intv _ => isTrue trivial
  | .nan => isTrue trivial

/-- Time-of-day sanity of a parsed date cell. -/
def timeOkB : Option DT → Bool
  | some x => decide (x.t < 86400)
  | none => true

/-- Reference time of the spec's concrete scenario 1: 2023-04-01. -/
def nowW : DT := ⟨⟨2023, 4, 1⟩, 0⟩

/-- 2023-01-10, the stale action date of scenario 1. -/
def dtEne10 : DT := ⟨⟨2023, 1, 10⟩, 0⟩

/-- 2023-03-15, a recent action date. -/
def dtMar15 : DT := ⟨⟨2023, 3, 15⟩, 0⟩

/-- The quoted case identifier of scenario 1. -/
def q123 : String := quoteStr ++ "123" ++ quoteStr

/-- Scenario 1's dataset: one quoted stale row, one unparseable-date row. -/
def dfW : DataFrame :=
  ⟨true, true, true,
   [⟨.str q123, some dtEne10, some "Filed"⟩, ⟨.intv 456, none, some "Served"⟩]⟩

/-- Placeholder output for reading an `Except` (never used on success). -/
def outDefault : Output := ⟨[], ⟨false, false, false, []⟩, [], [], ⟨⟨0, 0, 0⟩, 0⟩, ⟨⟨0, 0, 0⟩, 0⟩⟩

/-- Read the payload of a successful run. -/
def getOk : Except PyErr Output → Output
  | .ok o => o
  | .error _ => outDefault

/-- The concrete output of scenario 1. -/
def oW : Output := getOk (procesar_datos dfW nowW).1

/-- A dataset without the case-identifier column, with no stale row. -/
def dfNoCaso : DataFrame := ⟨false, true, true, [⟨.nan, some dtMar15, some "Filed"⟩]⟩

/-- A dataset without the date column. -/
def dfNoFecha : DataFrame := ⟨true, false, true, [⟨.intv 1, some dtMar15, some "A"⟩]⟩

/-- A one-row dataset used to expose the ambient-clock read. -/
def dfC4 : DataFrame := ⟨true, true, true, [⟨.intv 7, some dtEne10, some "A"⟩]⟩

/-- 2023-02-01 as a clock reading. -/
def tFeb : DT := ⟨⟨2023, 2, 1⟩, 0⟩

/-- 2023-06-01 as a clock reading. -/
def tJun : DT := ⟨⟨2023, 6, 1⟩, 0⟩

/-- All columns present, all dates parseable, labels mixing NaN with a
string. -/
def df10 : DataFrame :=
  ⟨true, true, true,
   [⟨.intv 1, some dtMar15, some "A"⟩, ⟨.intv 2, some dtEne10, none⟩]⟩

/-! Basic facts about the cleaning steps. -/

@[simp]
theorem stripStep_hasCaso (df : DataFrame) : (stripStep df).hasCaso = df.hasCaso := by
  unfold stripStep; split <;> rfl

@[simp]
theorem stripStep_hasFecha (df : DataFrame) : (stripStep df).hasFecha = df.hasFecha := by
  unfold stripStep; split <;> rfl

@[simp]
theorem stripStep_hasActuacion (df : DataFrame) : (stripStep df).hasActuacion = df.hasActuacion := by
  unfold stripStep; split <;> rfl

@[simp]
theorem cleanedOf_hasCaso (df : DataFrame) : (cleanedOf df).hasCaso = df.hasCaso := by
  unfold cleanedOf dropnaStep; simp

@[simp]
theorem cleanedOf_hasFecha (df : DataFrame) : (cleanedOf df).hasFecha = df.hasFecha := by
  unfold cleanedOf dropnaStep; simp

@[simp]
theorem cleanedOf_hasActuacion (df : DataFrame) : (cleanedOf df).hasActuacion = df.hasActuacion := by
  unfold cleanedOf dropnaStep; simp

@[simp]
theorem stripRow_fecha (r : Row) : (stripRow r).fecha = r.fecha := rfl

@[simp]
theorem stripRow_actuacion (r : Row) : (stripRow r).actuacion = r.actuacion := rfl

@[simp]
theorem hasDate_stripRow (r : Row) : hasDate (stripRow r) = hasDate r := rfl

@[simp]
theorem staleTest_stripRow (lim : DT) (r : Row) : staleTest lim (stripRow r) = staleTest lim r := rfl

@[simp]
theorem fechaKey_stripRow (r : Row) : fechaKey (stripRow r) = fechaKey r := rfl

@[simp]
theorem projStale_fecha (n : DT) (r : Row) : (projStale n r).fecha = r.fecha := rfl

@[simp]
theorem projStale_caso (n : DT) (r : Row) : (projStale n r).caso = r.caso := rfl

@[simp]
theorem projStale_age (n : DT) (r : Row) : (projStale n r).age = ageDays n r.fecha := rfl

/-- The cleaned rows are the parseable-date rows, quote-stripped exactly
when the strip of line 25 ran. -/
theorem cleanedOf_rows2 (df : DataFrame) :
    (df.hasCaso && casoDtypeObject df.rows) = true ∧
      (cleanedOf df).rows = (df.rows.filter hasDate).map stripRow ∨
    (df.hasCaso && casoDtypeObject df.rows) = false ∧
      (cleanedOf df).rows = df.rows.filter hasDate := by
  unfold cleanedOf dropnaStep stripStep
  by_cases h : (df.hasCaso && casoDtypeObject df.rows) = true
  · left
    refine ⟨h, ?_⟩
    rw [if_pos h]
    have : hasDate ∘ stripRow = hasDate := by funext r; rfl
    rw [List.filter_map, this]
  · right
    refine ⟨by simpa using h, ?_⟩
    rw [if_neg h]

theorem cleanedOf_mem {df : DataFrame} {r : Row} (h : r ∈ (cleanedOf df).rows) :
    hasDate r = true ∧ ∃ r0 ∈ df.rows, r.fecha = r0.fecha ∧ r.actuacion = r0.actuacion := by
  rcases cleanedOf_rows2 df with ⟨_, hr⟩ | ⟨_, hr⟩ <;> rw [hr] at h
  · rcases List.mem_map.1 h with ⟨r0, h0, rfl⟩
    rcases List.mem_filter.1 h0 with ⟨h1, h2⟩
    exact ⟨h2, r0, h1, rfl, rfl⟩
  · rcases List.mem_filter.1 h with ⟨h1, h2⟩
    exact ⟨h2, r, h1, rfl, rfl⟩

theorem cleanedOf_map_act (df : DataFrame) :
    (cleanedOf df).rows.map Row.actuacion = (df.rows.filter hasDate).map Row.actuacion := by
  rcases cleanedOf_rows2 df with ⟨_, hr⟩ | ⟨_, hr⟩ <;> rw [hr]
  rw [List.map_map]; rfl

/-! Facts about `pdUnique`. -/

theorem uniqAux_mem (l : List (Option String)) :
    ∀ (seen : List (Option String)) (a : Option String),
      a ∈ uniqAux seen l ↔ a ∈ l ∧ a ∉ seen := by
  induction l with
  | nil => intro seen a; simp [uniqAux]
  | cons b l ih =>
    intro seen a
    by_cases hb : b ∈ seen
    · rw [show uniqAux seen (b :: l) = uniqAux seen l from by rw [uniqAux, if_pos hb]]
      rw [ih]
      by_cases hab : a = b <;> simp [hab, hb]
    · rw [show uniqAux seen (b :: l) = b :: uniqAux (b :: seen) l from by rw [uniqAux, if_neg hb]]
      by_cases hab : a = b <;> simp [hab, hb, ih, List.mem_cons]

theorem uniqAux_nodup (l : List (Option String)) :
    ∀ seen : List (Option String), (uniqAux seen l).Nodup := by
  induction l with
  | nil => intro seen; simp [uniqAux]
  | cons b l ih =>
    intro seen
    by_cases hb : b ∈ seen
    · rw [show uniqAux seen (b :: l) = uniqAux seen l from by rw [uniqAux, if_pos hb]]
      exact ih seen
    · rw [show uniqAux seen (b :: l) = b :: uniqAux (b :: seen) l from by rw [uniqAux, if_neg hb]]
      refine List.Nodup.cons ?_ (ih (b :: seen))
      intro hmem
      exact ((uniqAux_mem l (b :: seen) b).1 hmem).2 (List.mem_cons_self b seen)

theorem pdUnique_mem (l : List (Option String)) (a : Option String) :
    a ∈ pdUnique l ↔ a ∈ l := by
  unfold pdUnique; rw [uniqAux_mem]; simp

theorem pdUnique_nodup (l : List (Option String)) : (pdUnique l).Nodup := uniqAux_nodup l []

/-! Facts about the descending pandas sort. -/

theorem pandasSortDesc_perm {α K : Type} [LinearOrder K] (key : α → K) (l : List α) :
    List.Perm (pandasSortDesc key l) l := by
  unfold pandasSortDesc
  exact (List.reverse_perm _).trans ((List.perm_insertionSort _ _).trans (List.reverse_perm _))

theorem pandasSortDesc_mem {α K : Type} [LinearOrder K] (key : α → K) (l : List α) (a : α) :
    a ∈ pandasSortDesc key l ↔ a ∈ l :=
  (pandasSortDesc_perm key l).mem_iff

theorem pandasSortDesc_sorted {α K : Type} [LinearOrder K] (key : α → K) (l : List α) :
    (pandasSortDesc key l).Pairwise (fun a b => key b ≤ key a) := by
  unfold pandasSortDesc
  rw [List.pairwise_reverse]
  exact List.sorted_insertionSort (leKey key) l.reverse

/-! Characterizations of `procesar_datos`. -/

theorem listaStep_ok_elim {rows : List Row} {lista : List (Option String)}
    (h : listaStep rows = .ok lista) :
    mixedLabels (pdUnique (rows.map Row.actuacion)) = false ∧
      lista = List.insertionSort optLe (pdUnique (rows.map Row.actuacion)) := by
  unfold listaStep at h
  by_cases hm : mixedLabels (pdUnique (rows.map Row.actuacion)) = true
  · rw [if_pos hm] at h; cases h
  · rw [if_neg hm] at h
    injection h with h2
    exact ⟨by simpa using hm, h2.symm⟩

/-- Eliminate a successful run into the defining pieces of its output. -/
theorem procesar_ok_elim {df : DataFrame} {now : DT} {o : Output}
    (h : (procesar_datos df now).1 = .ok o) :
    df.hasFecha = true ∧ df.hasActuacion = true ∧
    o.df = cleanedOf df ∧
    listaStep (cleanedOf df).rows = .ok o.lista ∧
    o.clasificado = pandasSortDesc fechaKey (cleanedOf df).rows ∧
    o.fechaActual = now.floorD ∧ o.fechaLimite = fechaLimiteOf now ∧
    ((staleOf df now).isEmpty = true ∧ o.atrasados = [] ∨
     (staleOf df now).isEmpty = false ∧ df.hasCaso = true ∧
       o.atrasados =
         pandasSortDesc StaleRow.age ((staleOf df now).map (projStale now.floorD))) := by
  unfold procesar_datos at h
  by_cases h1 : (stripStep df).hasFecha = false
  · rw [if_pos h1] at h; cases h
  · rw [if_neg h1] at h
    by_cases h2 : (cleanedOf df).hasActuacion = false
    · rw [if_pos h2] at h; cases h
    · rw [if_neg h2] at h
      rw [stripStep_hasFecha] at h1
      rw [cleanedOf_hasActuacion] at h2
      rcases hls : listaStep (cleanedOf df).rows with e | lista
      · rw [hls] at h; cases h
      · rw [hls] at h
        dsimp only at h
        by_cases h4 : (staleOf df now).isEmpty = true
        · rw [if_pos h4] at h
          injection h with h
          subst h
          exact ⟨by simpa using h1, by simpa using h2, rfl, rfl, rfl, rfl, rfl,
            Or.inl ⟨h4, rfl⟩⟩
        · rw [if_neg h4] at h
          by_cases h5 : (cleanedOf df).hasCaso = false
          · rw [if_pos h5] at h; cases h
          · rw [if_neg h5] at h
            injection h with h
            subst h
            rw [cleanedOf_hasCaso] at h5
            exact ⟨by simpa using h1, by simpa using h2, rfl, rfl, rfl, rfl, rfl,
              Or.inr ⟨by simpa using h4, by simpa using h5, rfl⟩⟩

/-- Whenever the date column exists, the argument dataframe ends up in the
cleaned state (stripped, converted, dropped), whatever the outcome. -/
theorem procesar_snd {df : DataFrame} (now : DT) (h : df.hasFecha = true) :
    (procesar_datos df now).2 = cleanedOf df := by
  unfold procesar_datos
  rw [if_neg (by simp [h])]
  by_cases h2 : (cleanedOf df).hasActuacion = false
  · rw [if_pos h2]
  · rw [if_neg h2]
    rcases hls : listaStep (cleanedOf df).rows with e | lista
    · rfl
    · dsimp only
      by_cases h4 : (staleOf df now).isEmpty = true
      · rw [if_pos h4]
      · rw [if_neg h4]
        by_cases h5 : (cleanedOf df).hasCaso = false
        · rw [if_pos h5]
        · rw [if_neg h5]

/-- A run succeeds exactly under `okCond`. -/
theorem procesar_isOk (df : DataFrame) (now : DT) :
    isOkB (procesar_datos df now).1 = okCond df now := by
  unfold procesar_datos okCond
  by_cases h1 : (stripStep df).hasFecha = false
  · rw [if_pos h1]
    rw [stripStep_hasFecha] at h1
    simp [isOkB, h1]
  · rw [if_neg h1]
    rw [stripStep_hasFecha] at h1
    replace h1 : df.hasFecha = true := by simpa using h1
    by_cases h2 : (cleanedOf df).hasActuacion = false
    · rw [if_pos h2]
      rw [cleanedOf_hasActuacion] at h2
      simp [isOkB, h1, h2]
    · rw [if_neg h2]
      rw [cleanedOf_hasActuacion] at h2
      replace h2 : df.hasActuacion = true := by simpa using h2
      unfold listaStep
      by_cases hm : mixedLabels (pdUnique ((cleanedOf df).rows.map Row.actuacion)) = true
      · rw [if_pos hm]
        simp [isOkB, h1, h2, hm]
      · rw [if_neg hm]
        dsimp only
        replace hm : mixedLabels (pdUnique ((cleanedOf df).rows.map Row.actuacion)) = false := by
          simpa using hm
        by_cases h4 : (staleOf df now).isEmpty = true
        · rw [if_pos h4]
          simp [isOkB, h1, h2, hm, h4]
        · rw [if_neg h4]
          replace h4 : (staleOf df now).isEmpty = false := by simpa using h4
          by_cases h5 : (cleanedOf df).hasCaso = false
          · rw [if_pos h5]
            rw [cleanedOf_hasCaso] at h5
            simp [isOkB, h1, h2, hm, h4, h5]
          · rw [if_neg h5]
            rw [cleanedOf_hasCaso] at h5
            replace h5 : df.hasCaso = true := by simpa using h5
            simp [isOkB, h1, h2, hm, h4, h5]

/-- A missing date column fails at line 28 with its `KeyError`. -/
theorem procesar_noFecha {df : DataFrame} (now : DT) (h : df.hasFecha = false) :
    (procesar_datos df now).1 = .error (.keyError COL_FECHA) := by
  unfold procesar_datos
  rw [if_pos (by simp [h])]

/-- A missing label column (date column present) fails at line 34. -/
theorem procesar_noActuacion {df : DataFrame} (now : DT) (hf : df.hasFecha = true)
    (h : df.hasActuacion = false) :
    (procesar_datos df now).1 = .error (.keyError COL_ACTUACION) := by
  unfold procesar_datos
  rw [if_neg (by simp [hf]), if_pos (by simp [h])]

/-- A missing case column fails only at the projection of line 56: the run
must reach it with a non-empty stale subset. -/
theorem procesar_noCaso {df : DataFrame} {now : DT} (hf : df.hasFecha = true)
    (ha : df.hasActuacion = true)
    (hm : mixedLabels (pdUnique ((cleanedOf df).rows.map Row.actuacion)) = false)
    (hs : (staleOf df now).isEmpty = false) (hc : df.hasCaso = false) :
    (procesar_datos df now).1 = .error (.keyError COL_CASO) := by
  unfold procesar_datos
  rw [if_neg (by simp [hf]), if_neg (by simp [ha])]
  unfold listaStep
  rw [if_neg (by simp [hm])]
  dsimp only
  rw [if_neg (by simp [hs]), if_pos (by simp [hc])]

/-! Calendar facts. -/

/-- dateutil's borrow-based two-month subtraction agrees with the spec's
absolute-month formulation on every valid date. -/
theorem subTwoMonths_eq_specCutoff (x : Date) (h : ValidDate x) :
    subTwoMonths x = specCutoff x := by
  obtain ⟨y, m, d⟩ := x
  obtain ⟨hy, hm1, hm2, hd1, hd2⟩ := h
  simp only at hy hm1 hm2 hd1 hd2
  unfold subTwoMonths specCutoff
  by_cases h3 : 3 ≤ m
  · rw [if_pos h3]
    have e1 : (12 * y + (m - 1) - 2) / 12 = y := by omega
    have e2 : (12 * y + (m - 1) - 2) % 12 + 1 = m - 2 := by omega
    simp only [e1, e2]
    rw [Nat.min_comm]
  · rw [if_neg h3]
    have e1 : (12 * y + (m - 1) - 2) / 12 = y - 1 := by omega
    have e2 : (12 * y + (m - 1) - 2) % 12 + 1 = m + 10 := by omega
    simp only [e1, e2]
    rw [Nat.min_comm]

/-- Two calendar months back never moves a valid date forward on the day
line. -/
theorem subTwoMonths_ordinal_le (x : Date) (h : ValidDate x) :
    (subTwoMonths x).ordinal ≤ x.ordinal := by
  obtain ⟨y, m, d⟩ := x
  obtain ⟨hy, hm1, hm2, hd1, hd2⟩ := h
  simp only at hy hm1 hm2 hd1 hd2
  interval_cases m <;>
    (simp only [subTwoMonths]
     norm_num
     simp only [Date.ordinal, daysBeforeMonth, daysInMonth, leapsBefore]
     cases hL : isLeap (y - 1) <;> cases hN : isLeap y <;> simp [hL, hN] <;> omega)

/-! Bridges between the row-level tests and their arithmetic content. -/

theorem staleTest_iff (lim : DT) (r : Row) :
    staleTest lim r = true ↔ ∃ x, r.fecha = some x ∧ x.floorD.lin < lim.lin := by
  unfold staleTest
  cases hf : r.fecha with
  | none => simp
  | some x => simp

theorem staleTest_congr (lim : DT) {r s : Row} (h : r.fecha = s.fecha) :
    staleTest lim r = staleTest lim s := by
  unfold staleTest
  rw [h]

theorem staleTest_hasDate {lim : DT} {r : Row} (h : staleTest lim r = true) :
    r.fecha.isSome = true := by
  rcases (staleTest_iff lim r).1 h with ⟨x, hx, _⟩
  rw [hx]
  rfl

/-- The cutoff of a run is, on the day line, no later than the reference
midnight itself. -/
theorem fechaLimite_le_now (now : DT) (h : ValidDT now) :
    (fechaLimiteOf now).lin ≤ now.floorD.lin := by
  unfold fechaLimiteOf DT.lin DT.floorD
  simp only
  have := subTwoMonths_ordinal_le now.date h.1
  omega

/-! Dropping the unparseable-date rows up front changes no decision the
run makes. -/

theorem filter_hasDate_idem (l : List Row) :
    (l.filter hasDate).filter hasDate = l.filter hasDate :=
  List.filter_eq_self.2 (fun _ ha => (List.mem_filter.1 ha).2)

theorem isEmpty_map {α β : Type} (f : α → β) (l : List α) :
    (l.map f).isEmpty = l.isEmpty := by
  cases l <;> rfl

theorem staleOf_isEmpty_eq (df : DataFrame) (now : DT) :
    (staleOf df now).isEmpty =
      ((df.rows.filter hasDate).filter (staleTest (fechaLimiteOf now))).isEmpty := by
  unfold staleOf
  rcases cleanedOf_rows2 df with ⟨_, hr⟩ | ⟨_, hr⟩ <;> rw [hr]
  · have hc : staleTest (fechaLimiteOf now) ∘ stripRow = staleTest (fechaLimiteOf now) := by
      funext r; rfl
    rw [List.filter_map, hc, isEmpty_map]

@[simp]
theorem dropBadRows_hasCaso (df : DataFrame) : (dropBadRows df).hasCaso = df.hasCaso := rfl

@[simp]
theorem dropBadRows_hasFecha (df : DataFrame) : (dropBadRows df).hasFecha = df.hasFecha := rfl

@[simp]
theorem dropBadRows_hasActuacion (df : DataFrame) :
    (dropBadRows df).hasActuacion = df.hasActuacion := rfl

theorem okCond_dropBadRows (df : DataFrame) (now : DT) :
    okCond (dropBadRows df) now = okCond df now := by
  unfold okCond
  rw [cleanedOf_map_act, cleanedOf_map_act, staleOf_isEmpty_eq, staleOf_isEmpty_eq,
    dropBadRows_hasCaso, dropBadRows_hasFecha, dropBadRows_hasActuacion,
    show (dropBadRows df).rows = df.rows.filter hasDate from rfl, filter_hasDate_idem]

/-! Spec scenarios, checked by evaluation. -/

/-- Concrete scenario 1 of the spec: quoted case "123" is stripped, the
unparseable row is dropped, cutoff is 2023-02-01, and the stale row has
age 81 days. -/
theorem scenario1 :
    oW.lista = [some "Filed"] ∧
    oW.fechaLimite = ⟨⟨2023, 2, 1⟩, 0⟩ ∧
    oW.atrasados = [⟨.str "123", some dtEne10, some "Filed", 81⟩] := by decide

/-- Concrete scenario 2 of the spec: clamping of the two-month subtraction. -/
theorem scenario2 :
    subTwoMonths ⟨2023, 3, 31⟩ = ⟨2023, 1, 31⟩ ∧
    subTwoMonths ⟨2024, 1, 31⟩ = ⟨2023, 11, 30⟩ := by decide

/-! The claims. -/

/-- C1: for every dataset and reference time, on a successful run the
cutoff `fecha_limite` equals the spec-modelled civil-calendar "two months
before midnight-of-now" (`specCutoff`, month-length aware with day
clamping), and a cleaned row's projection is in the stale view iff the
row's action-date floored to the day is strictly earlier than that
cutoff. -/
theorem C1_stale_membership (df : DataFrame) (now : DT) (o : Output)
    (hok : (procesar_datos df now).1 = .ok o) (hnow : ValidDT now) :
    o.fechaLimite = ⟨specCutoff now.floorD.date, 0⟩ ∧
    ∀ r ∈ o.df.rows,
      (projStale o.fechaActual r ∈ o.atrasados ↔
        ∃ x, r.fecha = some x ∧
          x.floorD.lin < (DT.mk (specCutoff now.floorD.date) 0).lin) := by
  obtain ⟨hF, hA, hdf, hlista, hcl, hfa, hfl, hatr⟩ := procesar_ok_elim hok
  have hcut : subTwoMonths now.floorD.date = specCutoff now.floorD.date :=
    subTwoMonths_eq_specCutoff now.floorD.date hnow.1
  have hlim : fechaLimiteOf now = ⟨specCutoff now.floorD.date, 0⟩ := by
    unfold fechaLimiteOf
    rw [hcut]
  constructor
  · rw [hfl, hlim]
  · intro r hr
    rw [hdf] at hr
    rw [hfa]
    have hmem : projStale now.floorD r ∈ o.atrasados ↔
        staleTest (fechaLimiteOf now) r = true := by
      rcases hatr with ⟨hse, hnil⟩ | ⟨hse, hc, heq⟩
      · rw [hnil]
        unfold staleOf at hse
        rw [List.isEmpty_iff] at hse
        have hall := List.filter_eq_nil_iff.1 hse
        simp only [List.not_mem_nil, false_iff]
        intro hbad
        exact hall r hr hbad
      · rw [heq, pandasSortDesc_mem]
        constructor
        · intro hin
          rcases List.mem_map.1 hin with ⟨r2, hr2, hpe⟩
          have hfe : r2.fecha = r.fecha := by
            have := congrArg StaleRow.fecha hpe
            simpa using this
          have := (List.mem_filter.1 hr2).2
          rw [staleTest_congr (fechaLimiteOf now) hfe] at this
          exact this
        · intro htest
          exact List.mem_map.2 ⟨r, List.mem_filter.2 ⟨hr, htest⟩, rfl⟩
    rw [hmem, staleTest_iff, hlim]

/-- C1 witness: the scenario-1 run instantiates the stale-membership
equivalence. -/
theorem C1_stale_membership_wit :
    (procesar_datos dfW nowW).1 = .ok oW ∧ ValidDT nowW ∧
      (oW.fechaLimite = ⟨specCutoff nowW.floorD.date, 0⟩ ∧
       ∀ r ∈ oW.df.rows,
         (projStale oW.fechaActual r ∈ oW.atrasados ↔
           ∃ x, r.fecha = some x ∧
             x.floorD.lin < (DT.mk (specCutoff nowW.floorD.date) 0).lin)) :=
  ⟨by decide, by decide, C1_stale_membership dfW nowW oW (by decide) (by decide)⟩

/-- C2 counterexample: `dfNoCaso` lacks the required case-identifier
column, yet the run succeeds and returns outputs — the guard of line 24
skips the column silently and line 56 is never reached because no row is
stale.  This refutes "missing any of the three required columns fails
with a SchemaError". -/
theorem C2_missing_caso_cex :
    dfNoCaso.hasCaso = false ∧ isOkB (procesar_datos dfNoCaso nowW).1 = true := by decide

/-- C2 (amended): a missing action-date or action-label column always
fails with the `KeyError` naming it and yields no outputs; a missing
case-identifier column fails (naming it) only when the stale subset of
the cleaned rows is non-empty — for every dataset whose other two
columns are present and whose labels sort, an empty stale subset makes
the run succeed and return outputs, whether or not the case column
exists. -/
theorem C2_schema_errors (df : DataFrame) (now : DT) :
    (df.hasFecha = false → (procesar_datos df now).1 = .error (.keyError COL_FECHA)) ∧
    (df.hasFecha = true → df.hasActuacion = false →
      (procesar_datos df now).1 = .error (.keyError COL_ACTUACION)) ∧
    (df.hasFecha = true → df.hasActuacion = true →
      mixedLabels (pdUnique ((cleanedOf df).rows.map Row.actuacion)) = false →
      (staleOf df now).isEmpty = false → df.hasCaso = false →
      (procesar_datos df now).1 = .error (.keyError COL_CASO)) ∧
    (df.hasFecha = true → df.hasActuacion = true →
      mixedLabels (pdUnique ((cleanedOf df).rows.map Row.actuacion)) = false →
      (staleOf df now).isEmpty = true →
      ∃ o, (procesar_datos df now).1 = .ok o) := by
  refine ⟨fun h => procesar_noFecha now h,
    fun hf ha => procesar_noActuacion now hf ha,
    fun hf ha hm hs hc => procesar_noCaso hf ha hm hs hc,
    fun hf ha hm hs => ?_⟩
  have hik := procesar_isOk df now
  unfold okCond at hik
  rw [hf, ha, hm, hs] at hik
  simp only [Bool.not_false, Bool.and_true, Bool.true_and, Bool.true_or] at hik
  rcases hpd : (procesar_datos df now).1 with e | o
  · rw [hpd] at hik
    cases hik
  · exact ⟨o, rfl⟩

/-- C2 witness: a dataset without the date column fails with the
`KeyError` naming `Fecha Actuación`, and the case-column-free
`dfNoCaso` with its empty stale subset succeeds. -/
theorem C2_schema_errors_wit :
    (dfNoFecha.hasFecha = false ∧
      (procesar_datos dfNoFecha nowW).1 = .error (.keyError COL_FECHA)) ∧
    (dfNoCaso.hasCaso = false ∧ dfNoCaso.hasFecha = true ∧ dfNoCaso.hasActuacion = true ∧
      mixedLabels (pdUnique ((cleanedOf dfNoCaso).rows.map Row.actuacion)) = false ∧
      (staleOf dfNoCaso nowW).isEmpty = true ∧
      ∃ o, (procesar_datos dfNoCaso nowW).1 = .ok o) :=
  ⟨⟨by decide, (C2_schema_errors dfNoFecha nowW).1 (by decide)⟩,
   by decide, by decide, by decide, by decide, by decide,
   (C2_schema_errors dfNoCaso nowW).2.2.2 (by decide) (by decide) (by decide) (by decide)⟩

/-- C4: the current time is NOT an injected parameter of
`procesar_datos(df)` — line 43 reads `datetime.now()` inside the function.
With the ambient clock made explicit, one and the same dataset argument
yields different results at two different call instants, so the output is
not a function of the caller-supplied arguments; determinism holds only
once the ambient reading is fixed. -/
theorem C4_ambient_clock_dependence :
    (procesar_datos dfC4 tFeb).1 ≠ (procesar_datos dfC4 tJun).1 := by decide

/-- C5: on a successful run with a valid reference time and in-range
times of day, every stale row's `age_days` is the whole-day (floor)
difference between the reference midnight and the row's original,
unfloored action-date, and it is non-negative. -/
theorem C5_age_days (df : DataFrame) (now : DT) (o : Output)
    (hok : (procesar_datos df now).1 = .ok o) (hnow : ValidDT now)
    (ht : df.rows.all (fun r => timeOkB r.fecha) = true) :
    ∀ e ∈ o.atrasados, ∃ x, e.fecha = some x ∧
      e.age = ((now.floorD.lin : Int) - (x.lin : Int)).fdiv 86400 ∧ 0 ≤ e.age := by
  obtain ⟨_, _, hdf, _, _, _, _, hatr⟩ := procesar_ok_elim hok
  rcases hatr with ⟨_, hnil⟩ | ⟨_, _, heq⟩
  · rw [hnil]
    intro e he
    cases he
  · rw [heq]
    intro e he
    rcases List.mem_map.1 ((pandasSortDesc_mem _ _ _).1 he) with ⟨r, hr, rfl⟩
    obtain ⟨hrmem, hrtest⟩ := List.mem_filter.1 hr
    rcases (staleTest_iff _ r).1 hrtest with ⟨x, hx, hlt⟩
    have hto : x.t < 86400 := by
      obtain ⟨_, r0, hr0, hfe, _⟩ := cleanedOf_mem hrmem
      have := List.all_eq_true.1 ht r0 hr0
      rw [← hfe, hx] at this
      simpa [timeOkB] using this
    refine ⟨x, by simpa using hx, ?_, ?_⟩
    · rw [projStale_age, hx]
      rfl
    · rw [projStale_age, hx]
      show 0 ≤ ageDays now.floorD (some x)
      unfold ageDays
      have hcn : (fechaLimiteOf now).lin ≤ now.floorD.lin := fechaLimite_le_now now hnow
      have e1 : x.floorD.lin = 86400 * x.date.ordinal := rfl
      have e2 : now.floorD.lin = 86400 * now.date.ordinal := rfl
      have e3 : (fechaLimiteOf now).lin = 86400 * (subTwoMonths now.date).ordinal := rfl
      have e4 : x.lin = 86400 * x.date.ordinal + x.t := rfl
      refine Int.fdiv_nonneg ?_ (by norm_num)
      rw [e1, e3] at hlt
      rw [e3, e2] at hcn
      rw [e2, e4]
      omega

/-- C5 witness: the scenario-1 run instantiates the age-days property
(age 81 for the stale row). -/
theorem C5_age_days_wit :
    (procesar_datos dfW nowW).1 = .ok oW ∧ ValidDT nowW ∧
      dfW.rows.all (fun r => timeOkB r.fecha) = true ∧
      ∀ e ∈ oW.atrasados, ∃ x, e.fecha = some x ∧
        e.age = ((nowW.floorD.lin : Int) - (x.lin : Int)).fdiv 86400 ∧ 0 ≤ e.age :=
  ⟨by decide, by decide, by decide,
   C5_age_days dfW nowW oW (by decide) (by decide) (by decide)⟩

/-- C6 counterexample: the argument object the caller passes in is
observably changed by the call — the quoted case identifier of `dfW` is
stripped in place (and its unparseable row dropped), so the state of the
argument after the call differs from the value passed in.  This refutes
"the argument object the caller passed in is observably unchanged". -/
theorem C6_argument_mutated_cex : (procesar_datos dfW nowW).2 ≠ dfW := by decide

/-- C6 (amended): `procesar_datos` mutates its argument in place — after
any call in which the date column exists, the argument holds the cleaned
state (case column stringified and quote-stripped when the strip ran,
unparseable-date rows dropped) — while the caller of line 93 passes
`df_original.copy()`, so the caller's retained `df_original` is unchanged
by the call. -/
theorem C6_mutation (df : DataFrame) (now : DT) (h : df.hasFecha = true) :
    (procesar_datos df now).2 = cleanedOf df ∧ (appCall df now).2 = df :=
  ⟨procesar_snd now h, rfl⟩

/-- C6 witness: the scenario-1 call leaves its argument in the cleaned
state and `df_original` untouched. -/
theorem C6_mutation_wit :
    dfW.hasFecha = true ∧
      ((procesar_datos dfW nowW).2 = cleanedOf dfW ∧ (appCall dfW nowW).2 = dfW) :=
  ⟨by decide, C6_mutation dfW nowW (by decide)⟩

/-- C7: rows whose action-date fails to parse never decide a run's fate —
removing them up front leaves success/failure unchanged — and on success
they appear in no output: every cleaned row, classified row and stale row
has a parsed date, and every listed label is the label of some cleaned
(parsed-date) row. -/
theorem C7_unparseable_rows (df : DataFrame) (now : DT) :
    isOkB (procesar_datos df now).1 = isOkB (procesar_datos (dropBadRows df) now).1 ∧
    ∀ o, (procesar_datos df now).1 = .ok o →
      (∀ r ∈ o.df.rows, r.fecha.isSome = true) ∧
      (∀ r ∈ o.clasificado, r.fecha.isSome = true) ∧
      (∀ e ∈ o.atrasados, e.fecha.isSome = true) ∧
      (∀ s ∈ o.lista, ∃ r ∈ o.df.rows, r.actuacion = s) := by
  constructor
  · rw [procesar_isOk, procesar_isOk, okCond_dropBadRows]
  · intro o hok
    obtain ⟨_, _, hdf, hlista, hcl, _, _, hatr⟩ := procesar_ok_elim hok
    have hclean : ∀ r ∈ (cleanedOf df).rows, r.fecha.isSome = true := by
      intro r hr
      have := (cleanedOf_mem hr).1
      simpa [hasDate] using this
    refine ⟨?_, ?_, ?_, ?_⟩
    · rw [hdf]
      exact hclean
    · rw [hcl]
      intro r hr
      exact hclean r ((pandasSortDesc_mem _ _ _).1 hr)
    · rcases hatr with ⟨_, hnil⟩ | ⟨_, _, heq⟩
      · rw [hnil]
        intro e he
        cases he
      · rw [heq]
        intro e he
        rcases List.mem_map.1 ((pandasSortDesc_mem _ _ _).1 he) with ⟨r, hr, rfl⟩
        rw [projStale_fecha]
        exact staleTest_hasDate (List.mem_filter.1 hr).2
    · obtain ⟨_, hlz⟩ := listaStep_ok_elim hlista
      rw [hdf, hlz]
      intro s hs
      exact List.mem_map.1 ((pdUnique_mem _ _).1 ((List.mem_insertionSort optLe).1 hs))

/-- C7 witness: the scenario-1 dataset (one unparseable-date row)
instantiates both halves of the property. -/
theorem C7_unparseable_rows_wit :
    (isOkB (procesar_datos dfW nowW).1 = isOkB (procesar_datos (dropBadRows dfW) nowW).1) ∧
      ((∀ r ∈ oW.df.rows, r.fecha.isSome = true) ∧
       (∀ r ∈ oW.clasificado, r.fecha.isSome = true) ∧
       (∀ e ∈ oW.atrasados, e.fecha.isSome = true) ∧
       (∀ s ∈ oW.lista, ∃ r ∈ oW.df.rows, r.actuacion = s)) :=
  ⟨(C7_unparseable_rows dfW nowW).1, (C7_unparseable_rows dfW nowW).2 oW (by decide)⟩

/-- C8: on every successful run the label catalog has no duplicates, is
sorted ascending (lexicographically on its string entries, via `optLe`),
and holds exactly the distinct action-label values of the cleaned
dataset. -/
theorem C8_action_labels (df : DataFrame) (now : DT) (o : Output)
    (hok : (procesar_datos df now).1 = .ok o) :
    o.lista.Nodup ∧ o.lista.Pairwise optLe ∧
    ∀ s, s ∈ o.lista ↔ ∃ r ∈ o.df.rows, r.actuacion = s := by
  obtain ⟨_, _, hdf, hlista, _, _, _, _⟩ := procesar_ok_elim hok
  obtain ⟨_, hlz⟩ := listaStep_ok_elim hlista
  rw [hlz, hdf]
  refine ⟨?_, ?_, ?_⟩
  · exact ((List.perm_insertionSort optLe _).nodup_iff).2 (pdUnique_nodup _)
  · exact List.sorted_insertionSort optLe _
  · intro s
    rw [List.mem_insertionSort, pdUnique_mem]
    constructor
    · intro hs
      exact List.mem_map.1 hs
    · rintro ⟨r, hr, hre⟩
      exact List.mem_map.2 ⟨r, hr, hre⟩

/-- C8 witness: the scenario-1 run instantiates the label-catalog
property. -/
theorem C8_action_labels_wit :
    (procesar_datos dfW nowW).1 = .ok oW ∧
      (oW.lista.Nodup ∧ oW.lista.Pairwise optLe ∧
       ∀ s, s ∈ oW.lista ↔ ∃ r ∈ oW.df.rows, r.actuacion = s) :=
  ⟨by decide, C8_action_labels dfW nowW oW (by decide)⟩

/-- C9: on every successful run of a dataset that has the case-identifier
column, no case value of any output view contains a literal single-quote
character: when the column is textual the strip of line 25 removes every
quote, and otherwise the column holds no text at all. -/
theorem C9_no_quotes (df : DataFrame) (now : DT) (o : Output)
    (hok : (procesar_datos df now).1 = .ok o) (hc : df.hasCaso = true) :
    (∀ r ∈ o.df.rows, noQuoteC r.caso) ∧ (∀ r ∈ o.clasificado, noQuoteC r.caso) ∧
    (∀ e ∈ o.atrasados, noQuoteC e.caso) := by
  obtain ⟨_, _, hdf, _, hcl, _, _, hatr⟩ := procesar_ok_elim hok
  have hclean : ∀ r ∈ (cleanedOf df).rows, noQuoteC r.caso := by
    rcases cleanedOf_rows2 df with ⟨_, hr⟩ | ⟨hcond, hr⟩ <;> rw [hr]
    · intro r hrm
      rcases List.mem_map.1 hrm with ⟨r0, _, rfl⟩
      show noQuoteC (.str (stripQuotes (astypeStr r0.caso)))
      unfold noQuoteC stripQuotes
      intro hmem
      have := (List.mem_filter.1 hmem).2
      simp at this
    · intro r hrm
      have hnotstr : ∀ r0 ∈ df.rows, isStrCaso r0.caso = false := by
        rw [hc] at hcond
        have : casoDtypeObject df.rows = false := by simpa using hcond
        unfold casoDtypeObject at this
        intro r0 hr0
        have := List.any_eq_false.1 this r0 hr0
        simpa using this
      have := hnotstr r (List.mem_filter.1 hrm).1
      cases hcv : r.caso with
      | str s => rw [hcv] at this; cases this
      | intv n => exact trivial
      | nan => exact trivial
  refine ⟨?_, ?_, ?_⟩
  · rw [hdf]
    exact hclean
  · rw [hcl]
    intro r hr
    exact hclean r ((pandasSortDesc_mem _ _ _).1 hr)
  · rcases hatr with ⟨_, hnil⟩ | ⟨_, _, heq⟩
    · rw [hnil]
      intro e he
      cases he
    · rw [heq]
      intro e he
      rcases List.mem_map.1 ((pandasSortDesc_mem _ _ _).1 he) with ⟨r, hr, rfl⟩
      rw [projStale_caso]
      exact hclean r (List.mem_filter.1 hr).1

/-- C9 witness: the scenario-1 run (quoted textual case cell next to an
integer cell) instantiates the no-quote invariant. -/
theorem C9_no_quotes_wit :
    (procesar_datos dfW nowW).1 = .ok oW ∧ dfW.hasCaso = true ∧
      ((∀ r ∈ oW.df.rows, noQuoteC r.caso) ∧ (∀ r ∈ oW.clasificado, noQuoteC r.caso) ∧
       (∀ e ∈ oW.atrasados, noQuoteC e.caso)) :=
  ⟨by decide, by decide, C9_no_quotes dfW nowW oW (by decide) (by decide)⟩

/-- C10: there is a dataset with all three required columns and every
action-date parseable on which the run nonetheless fails and withholds all
outputs: `df10` mixes a NaN label with a string label, so sorting the
distinct-label list at line 35 raises the `TypeError` that the catch-all
handler of line 70 converts into the spec's `ProcessingError`. -/
theorem C10_mixed_labels_error :
    df10.hasCaso = true ∧ df10.hasFecha = true ∧ df10.hasActuacion = true ∧
    df10.rows.all hasDate = true ∧
    (procesar_datos df10 nowW).1 = .error .typeError := by decide
